import Mathlib

/-!
Shallow embedding of `src/saas-platform/clients/cliente3/app.py`, a Flask
service with six GET routes (`/`, `/health`, `/api/data`, `/api/slow`,
`/api/error`, `/api/system`), one global `@app.errorhandler(Exception)`
catch-all, and a module-level `PORT = int(os.getenv('PORT', 5000))`.

Randomness (`random.random()`, `random.uniform`, `random.randint`), the
clock (`time.time()`, `datetime.now()`) and the psutil sensor readings are
modelled as explicit inputs; each handler is embedded as a function of the
inputs it reads.  A handler body that can `raise` returns `Except String`;
the Flask dispatch wraps a handler result into `(status, body)` exactly as
Flask does: `jsonify` defaults to status 200, and the catch-all
`handle_error` produces `({'error': str(error)}, 500)`.
-/

open Set MeasureTheory

/-- Calendar timestamp, modelling a Python `datetime.datetime` value as
produced by `datetime.now()` (naive, microsecond resolution). -/
structure DateTime where
  year : ℕ
  month : ℕ
  day : ℕ
  hour : ℕ
  minute : ℕ
  second : ℕ
  microsecond : ℕ
deriving DecidableEq

/-- Field ranges every Python `datetime` value satisfies
(`datetime.MINYEAR = 1`, `datetime.MAXYEAR = 9999`, etc.). -/
def DateTime.Valid (dt : DateTime) : Prop :=
  1 ≤ dt.year ∧ dt.year ≤ 9999 ∧ 1 ≤ dt.month ∧ dt.month ≤ 12 ∧
  1 ≤ dt.day ∧ dt.day ≤ 31 ∧ dt.hour ≤ 23 ∧ dt.minute ≤ 59 ∧
  dt.second ≤ 59 ∧ dt.microsecond ≤ 999999

instance (dt : DateTime) : Decidable dt.Valid := by
  unfold DateTime.Valid; infer_instance

/-- Decimal digit characters of `n`, most significant first (empty for 0,
which padding below turns into the all-zero field, matching `%02d` etc.). -/
def natDigits (n : ℕ) : List Char :=
  ((Nat.digits 10 n).map Nat.digitChar).reverse

/-- Zero-pad the decimal rendering of `n` on the left to width `k`,
as Python `isoformat` renders each fixed-width field. -/
def padNum (k n : ℕ) : List Char :=
  List.replicate (k - (natDigits n).length) '0' ++ natDigits n

/-- Python `datetime.isoformat()`: `YYYY-MM-DDTHH:MM:SS` followed by `.ffffff`
exactly when the microsecond field is nonzero. -/
def isoformat (dt : DateTime) : String :=
  ⟨padNum 4 dt.year ++ ('-' :: (padNum 2 dt.month ++ ('-' :: (padNum 2 dt.day ++
   ('T' :: (padNum 2 dt.hour ++ (':' :: (padNum 2 dt.minute ++ (':' :: (padNum 2 dt.second ++
   (if dt.microsecond = 0 then [] else '.' :: padNum 6 dt.microsecond)))))))))))⟩

/-- Consume exactly `n` decimal-digit characters, returning the rest. -/
def chompDigits : ℕ → List Char → Option (List Char)
  | 0, l => some l
  | _ + 1, [] => none
  | n + 1, c :: l => if c.isDigit then chompDigits n l else none

/-- Consume one expected character, returning the rest. -/
def chompChar (c : Char) : List Char → Option (List Char)
  | [] => none
  | d :: l => if d = c then some l else none

/-- After the seconds field an ISO-8601 timestamp either ends or carries a
`.ffffff` fractional part. -/
def isoTailOk : List Char → Bool
  | [] => true
  | l => ((chompChar '.' l).bind (chompDigits 6)) == some []

/-- Checker for the ISO-8601 shape `datetime.isoformat()` emits:
`DDDD-DD-DDTDD:DD:DD` with an optional 6-digit fractional-second part. -/
def isIso8601 (s : String) : Bool :=
  match ((((((((((chompDigits 4 s.data).bind (chompChar '-')).bind
    (chompDigits 2)).bind (chompChar '-')).bind (chompDigits 2)).bind
    (chompChar 'T')).bind (chompDigits 2)).bind (chompChar ':')).bind
    (chompDigits 2)).bind (chompChar ':')).bind (chompDigits 2) with
  | none => false
  | some rest => isoTailOk rest

/-! ### Route handlers -/

/-- Body returned by `home` (`/`). -/
structure HomeBody where
  message : String
  timestamp : String
  project : String
deriving DecidableEq

/-- Handler `home` for `/`. -/
def home (now : DateTime) : HomeBody :=
  { message := "Hello from Cliente 3 - Flask App!"
    timestamp := isoformat now
    project := "cliente3" }

/-- Readings the `/health` handler takes from `psutil.Process()`:
`create_time()`, `memory_percent()`, `cpu_percent()`. -/
structure ProcSensors where
  create_time : ℚ
  memory_percent : ℚ
  cpu_percent : ℚ
deriving DecidableEq

/-- Body returned by `health` (`/health`). -/
structure HealthBody where
  status : String
  uptime : ℚ
  memory_percent : ℚ
  cpu_percent : ℚ
  timestamp : String
deriving DecidableEq

/-- Handler `health` for `/health`; `timeNow` is the `time.time()` reading. -/
def health (now : DateTime) (timeNow : ℚ) (proc : ProcSensors) : HealthBody :=
  { status := "healthy"
    uptime := timeNow - proc.create_time
    memory_percent := proc.memory_percent
    cpu_percent := proc.cpu_percent
    timestamp := isoformat now }

/-- Python `random.randint(a, b)`: a uniformly drawn integer with `a ≤ result ≤ b`
(both endpoints included); `k` is the raw draw, reduced into the range the
way `randrange` reduces its source of randomness. -/
def randint (a b k : ℕ) : ℕ := a + k % (b - a + 1)

/-- Python `random.uniform(a, b)` `= a + (b-a) * random.random()`, with
`r = random.random() ∈ [0, 1)`. -/
def uniform (a b r : ℚ) : ℚ := a + (b - a) * r

/-- Body returned by `get_data` (`/api/data`). -/
structure DataBody where
  customers : ℕ
  sales : ℕ
  profit : ℕ
  timestamp : String
deriving DecidableEq

/-- Handler `get_data` for `/api/data`.  First component is the duration
passed to `time.sleep` (`random.uniform(0.1, 0.5)` with draw `sleepDraw`);
`k1`, `k2`, `k3` are the three independent `randint` draws. -/
def get_data (sleepDraw : ℚ) (k1 k2 k3 : ℕ) (now : DateTime) : ℚ × DataBody :=
  (uniform 0.1 0.5 sleepDraw,
   { customers := randint 100 1000 k1
     sales := randint 50 500 k2
     profit := randint 1000 10000 k3
     timestamp := isoformat now })

/-- Body returned by `slow_endpoint` (`/api/slow`). -/
structure SlowBody where
  message : String
  timestamp : String
deriving DecidableEq

/-- Handler `slow_endpoint` for `/api/slow`.  First component is the
duration passed to `time.sleep` (`random.uniform(1, 3)` with draw `r`). -/
def slow_endpoint (r : ℚ) (now : DateTime) : ℚ × SlowBody :=
  (uniform 1 3 r,
   { message := "This was a slow request from Flask"
     timestamp := isoformat now })

/-- Body returned by `error_endpoint` (`/api/error`) on the success branch. -/
structure SuccessBody where
  message : String
deriving DecidableEq

/-- Handler `error_endpoint` for `/api/error`; `r` is the
`random.random()` draw.  Raising `Exception(msg)` is modelled as
`Except.error msg`. -/
def error_endpoint (r : ℚ) : Except String SuccessBody :=
  if r > 0.5 then Except.error "Random error for testing from Flask"
  else Except.ok { message := "Success from Flask!" }

/-- Readings the `/api/system` handler takes from `psutil`:
`cpu_percent(interval=1)`, `virtual_memory()`, `disk_usage('/')`,
`net_io_counters()`, the mappings flattened to field-name/value lists. -/
structure SysSensors where
  cpu_percent : ℚ
  virtual_memory : List (String × ℚ)
  disk_usage : List (String × ℚ)
  net_io_counters : List (String × ℚ)
deriving DecidableEq

/-- Body returned by `system_info` (`/api/system`). -/
structure SysBody where
  cpu_percent : ℚ
  memory : List (String × ℚ)
  disk : List (String × ℚ)
  network : List (String × ℚ)
  timestamp : String
deriving DecidableEq

/-- Handler `system_info` for `/api/system`. -/
def system_info (now : DateTime) (sys : SysSensors) : SysBody :=
  { cpu_percent := sys.cpu_percent
    memory := sys.virtual_memory
    disk := sys.disk_usage
    network := sys.net_io_counters
    timestamp := isoformat now }

/-! ### Error handling and dispatch -/

/-- JSON body produced by the global catch-all. -/
structure ErrorBody where
  error : String
deriving DecidableEq

/-- Catch-all `handle_error`, i.e. `@app.errorhandler(Exception)`:
`jsonify({'error': str(error)}), 500`. -/
def handle_error (e : String) : ℕ × ErrorBody := (500, { error := e })

/-- Flask's dispatch of one handler outcome: a value returned through
`jsonify` gets status 200; a raised exception goes through `handle_error`
exactly once (no retry, no other recovery). -/
def flaskDispatch {β : Type} : Except String β → ℕ × (β ⊕ ErrorBody)
  | Except.ok b => (200, Sum.inl b)
  | Except.error e => ((handle_error e).1, Sum.inr (handle_error e).2)

/-! ### The app as a whole: routes, per-request environment, serving -/

/-- The six paths `app.route` registers. -/
inductive Route where
  | home
  | health
  | data
  | slow
  | error
  | system
deriving DecidableEq

/-- Everything outside the program that one request's handler can read:
the clock (`datetime.now()`, `time.time()`), the psutil sensors, and the
`random` draws.  Each request carries its own `Env`. -/
structure Env where
  now : DateTime
  timeNow : ℚ
  proc : ProcSensors
  sys : SysSensors
  dataSleepDraw : ℚ
  custDraw : ℕ
  salesDraw : ℕ
  profitDraw : ℕ
  slowDraw : ℚ
  errDraw : ℚ
deriving DecidableEq

/-- One response body, tagged by which handler produced it. -/
inductive Body where
  | homeB : HomeBody → Body
  | healthB : HealthBody → Body
  | dataB : DataBody → Body
  | slowB : SlowBody → Body
  | successB : SuccessBody → Body
  | sysB : SysBody → Body
  | errB : ErrorBody → Body
deriving DecidableEq

/-- Dispatch one request: route it to its handler, run the handler on the
request's environment, and serialize the outcome Flask-style (status 200
for a returned body, the `handle_error` conversion for a raised one). -/
def handle (rt : Route) (e : Env) : ℕ × Body :=
  match rt with
  | Route.home => (200, Body.homeB (home e.now))
  | Route.health => (200, Body.healthB (health e.now e.timeNow e.proc))
  | Route.data =>
      (200, Body.dataB (get_data e.dataSleepDraw e.custDraw e.salesDraw e.profitDraw e.now).2)
  | Route.slow => (200, Body.slowB (slow_endpoint e.slowDraw e.now).2)
  | Route.error =>
      match flaskDispatch (error_endpoint e.errDraw) with
      | (st, Sum.inl b) => (st, Body.successB b)
      | (st, Sum.inr b) => (st, Body.errB b)
  | Route.system => (200, Body.sysB (system_info e.now e.sys))

/-- Process a whole request history in order.  The program keeps no state
between requests (no mutable globals besides the externally-modelled RNG),
so serving is just `handle` applied to each request. -/
def serve (reqs : List (Route × Env)) : List (ℕ × Body) :=
  reqs.map fun p => handle p.1 p.2

/-! ### Module load: `PORT = int(os.getenv('PORT', 5000))` -/

/-- The six characters Python's `str.strip()` removes (the documented
whitespace set relevant to `int()`'s argument stripping). -/
def isPySpace (c : Char) : Bool :=
  c == ' ' || c == '\t' || c == '\n' || c == '\r' || c == '\x0b' || c == '\x0c'

/-- Strip leading and trailing whitespace, as `int(str)` does. -/
def pyStrip (l : List Char) : List Char :=
  ((l.dropWhile isPySpace).reverse.dropWhile isPySpace).reverse

/-- Numeric value of a decimal digit character. -/
def digitVal (c : Char) : ℕ := c.toNat - 48

/-- Digits after the first: Python's integer literals (and `int()`) allow a
single underscore between two digits, never doubled, leading or trailing. -/
def parseDigitsRest : List Char → ℕ → Option ℕ
  | [], acc => some acc
  | '_' :: c :: l, acc =>
      if c.isDigit then parseDigitsRest l (acc * 10 + digitVal c) else none
  | ['_'], _ => none
  | c :: l, acc =>
      if c.isDigit then parseDigitsRest l (acc * 10 + digitVal c) else none

/-- A nonempty underscore-separated digit string, as `int()` accepts after
the optional sign. -/
def parseUDigits : List Char → Option ℕ
  | [] => none
  | c :: l => if c.isDigit then parseDigitsRest l (digitVal c) else none

/-- Python `int(s)` on a decimal string: strip whitespace, optional sign,
digits (with legal underscores); anything else raises `ValueError`,
modelled as `none`. -/
def pythonInt (s : String) : Option ℤ :=
  match pyStrip s.data with
  | '+' :: l => (parseUDigits l).map fun n => (n : ℤ)
  | '-' :: l => (parseUDigits l).map fun n => -(n : ℤ)
  | l => (parseUDigits l).map fun n => (n : ℤ)

/-- The module-level binding `PORT = int(os.getenv('PORT', 5000))`:
if the variable is unset, `os.getenv` yields the default `5000` (already an
integer); if set, its string value goes through `int()`, whose failure
aborts the module load. -/
def modulePORT (envPORT : Option String) : Option ℤ :=
  match envPORT with
  | none => some 5000
  | some s => pythonInt s

/-- A started server: module load succeeded and the app is listening. -/
structure RunningApp where
  port : ℤ
deriving DecidableEq

/-- Program startup: evaluate the module (computing `PORT`), then run the
app.  A raised error during module evaluation means no server ever starts,
so no request is served. -/
def startApp (envPORT : Option String) : Option RunningApp :=
  (modulePORT envPORT).map fun p => { port := p }

/-- The raising condition of `error_endpoint`, as a subset of the real
draw space of `random.random()`: the draws on which the handler raises. -/
def errorRaiseSet : Set ℝ := {x : ℝ | 0.5 < x}

/-! ### Helper lemmas: the ISO-8601 shape of `isoformat` -/

theorem digitChar_isDigit : ∀ d : ℕ, d < 10 → (Nat.digitChar d).isDigit = true := by
  decide

theorem natDigits_isDigit {n : ℕ} {c : Char} (hc : c ∈ natDigits n) :
    c.isDigit = true := by
  unfold natDigits at hc
  rw [List.mem_reverse, List.mem_map] at hc
  obtain ⟨d, hd, rfl⟩ := hc
  exact digitChar_isDigit d (Nat.digits_lt_base (by norm_num) hd)

theorem natDigits_length_le {n k : ℕ} (h : n < 10 ^ k) :
    (natDigits n).length ≤ k := by
  unfold natDigits
  rw [List.length_reverse, List.length_map]
  rcases Nat.eq_zero_or_pos n with rfl | hn
  · simp
  · rw [Nat.digits_len 10 n (by norm_num) (Nat.pos_iff_ne_zero.mp hn)]
    have := (Nat.lt_pow_iff_log_lt (show (1 : ℕ) < 10 by norm_num)
      (Nat.pos_iff_ne_zero.mp hn)).mp h
    omega

theorem padNum_length {k n : ℕ} (h : n < 10 ^ k) : (padNum k n).length = k := by
  unfold padNum
  rw [List.length_append, List.length_replicate]
  have := natDigits_length_le h
  omega

theorem padNum_isDigit {k n : ℕ} {c : Char} (hc : c ∈ padNum k n) :
    c.isDigit = true := by
  unfold padNum at hc
  rw [List.mem_append] at hc
  rcases hc with hc | hc
  · rw [List.eq_of_mem_replicate hc]; decide
  · exact natDigits_isDigit hc

theorem chompDigits_append {l₁ l₂ : List Char} (h : ∀ c ∈ l₁, c.isDigit = true) :
    chompDigits l₁.length (l₁ ++ l₂) = some l₂ := by
  induction l₁ with
  | nil => simp [chompDigits]
  | cons c l ih =>
    simp only [List.length_cons, List.cons_append, chompDigits]
    rw [if_pos (h c (List.mem_cons_self c l))]
    exact ih fun d hd => h d (List.mem_cons_of_mem c hd)

theorem chompDigits_padNum {k n : ℕ} (h : n < 10 ^ k) (l : List Char) :
    chompDigits k (padNum k n ++ l) = some l := by
  have := @chompDigits_append (padNum k n) l (fun c hc => padNum_isDigit hc)
  rwa [padNum_length h] at this

theorem isIso8601_isoformat {dt : DateTime} (h : dt.Valid) :
    isIso8601 (isoformat dt) = true := by
  obtain ⟨hy1, hy2, hm1, hm2, hd1, hd2, hh, hmi, hs, hus⟩ := h
  have hy : dt.year < 10 ^ 4 := by norm_num; omega
  have hmo : dt.month < 10 ^ 2 := by norm_num; omega
  have hda : dt.day < 10 ^ 2 := by norm_num; omega
  have hho : dt.hour < 10 ^ 2 := by norm_num; omega
  have hmin : dt.minute < 10 ^ 2 := by norm_num; omega
  have hsec : dt.second < 10 ^ 2 := by norm_num; omega
  have husec : dt.microsecond < 10 ^ 6 := by norm_num; omega
  unfold isIso8601 isoformat
  simp only [chompDigits_padNum hy, Option.some_bind, chompChar, if_pos,
    chompDigits_padNum hmo, chompDigits_padNum hda, chompDigits_padNum hho,
    chompDigits_padNum hmin, chompDigits_padNum hsec]
  by_cases h0 : dt.microsecond = 0
  · simp [h0, chompDigits_padNum hsec, isoTailOk]
  · rw [if_neg h0]
    have h6 : chompDigits 6 (padNum 6 dt.microsecond ++ []) = some [] :=
      chompDigits_padNum husec []
    rw [List.append_nil] at h6
    cases hne : padNum 6 dt.microsecond with
    | nil =>
      have := padNum_length husec
      rw [hne] at this
      simp at this
    | cons a l =>
      rw [← hne]
      simp [isoTailOk, chompChar, h6]

/-! ### Claim theorems -/

/-- C2: every error raised inside a handler is converted by the single
global catch-all `handle_error` into the JSON body `{"error": <message>}`
with HTTP status 500 — one conversion, no retry, no other recovery; in
particular a raise inside `/api/error` reaches the wire this way. -/
theorem catch_all_500 (β : Type) (e : String) :
    flaskDispatch (Except.error e : Except String β) = (500, Sum.inr { error := e }) ∧
    handle_error e = (500, { error := e }) ∧
    (∀ env : Env, (0.5 : ℚ) < env.errDraw →
      handle Route.error env =
        (500, Body.errB { error := "Random error for testing from Flask" })) := by
  refine ⟨rfl, rfl, fun env h => ?_⟩
  simp only [handle, error_endpoint, if_pos (show env.errDraw > 0.5 from h)]
  rfl

/-- C2 witness: the catch-all at the concrete message "boom" and a
concrete `/api/error` request whose draw is 1. -/
theorem catch_all_500_witness :
    flaskDispatch (Except.error "boom" : Except String SuccessBody) =
      (500, Sum.inr { error := "boom" }) ∧
    handle Route.error ⟨⟨2026, 10, 12, 1, 2, 3, 4⟩, 100, ⟨1, 2, 3⟩,
        ⟨1, [], [], []⟩, 0, 0, 0, 0, 0, 1⟩ =
      (500, Body.errB { error := "Random error for testing from Flask" }) :=
  ⟨(catch_all_500 SuccessBody "boom").1,
   (catch_all_500 SuccessBody "boom").2.2 _ (by norm_num)⟩

/-- C3: every `/api/data` body has `customers ∈ [100, 1000]`,
`sales ∈ [50, 500]`, `profit ∈ [1000, 10000]` (inclusive), and each of the
three fields is a function of its own draw alone (the draws are
independent). -/
theorem get_data_bounds (r : ℚ) (k1 k2 k3 : ℕ) (dt : DateTime) :
    100 ≤ (get_data r k1 k2 k3 dt).2.customers ∧
    (get_data r k1 k2 k3 dt).2.customers ≤ 1000 ∧
    50 ≤ (get_data r k1 k2 k3 dt).2.sales ∧
    (get_data r k1 k2 k3 dt).2.sales ≤ 500 ∧
    1000 ≤ (get_data r k1 k2 k3 dt).2.profit ∧
    (get_data r k1 k2 k3 dt).2.profit ≤ 10000 ∧
    (get_data r k1 k2 k3 dt).2.customers = randint 100 1000 k1 ∧
    (get_data r k1 k2 k3 dt).2.sales = randint 50 500 k2 ∧
    (get_data r k1 k2 k3 dt).2.profit = randint 1000 10000 k3 := by
  have h1 : k1 % 901 < 901 := Nat.mod_lt _ (by norm_num)
  have h2 : k2 % 451 < 451 := Nat.mod_lt _ (by norm_num)
  have h3 : k3 % 9001 < 9001 := Nat.mod_lt _ (by norm_num)
  simp only [get_data, randint]
  norm_num
  omega

/-- C5: on one process (`create_time` fixed), successive `/health`
responses taken at clock readings `t₁ ≤ t₂` after the process started have
non-negative uptime, and the later uptime is at least the earlier one. -/
theorem health_uptime_monotone (now₁ now₂ : DateTime) (t₁ t₂ : ℚ)
    (p : ProcSensors) (h1 : p.create_time ≤ t₁) (h2 : t₁ ≤ t₂) :
    0 ≤ (health now₁ t₁ p).uptime ∧
    (health now₁ t₁ p).uptime ≤ (health now₂ t₂ p).uptime := by
  simp only [health]
  exact ⟨sub_nonneg.mpr h1, sub_le_sub_right h2 _⟩

/-- C5 witness: two concrete `/health` calls at clock times 10 and 12 on a
process created at time 3. -/
theorem health_uptime_monotone_witness :
    (3 : ℚ) ≤ 10 ∧ (10 : ℚ) ≤ 12 ∧
    0 ≤ (health ⟨2026, 10, 12, 1, 2, 3, 4⟩ 10 ⟨3, 40, 50⟩).uptime ∧
    (health ⟨2026, 10, 12, 1, 2, 3, 4⟩ 10 ⟨3, 40, 50⟩).uptime ≤
      (health ⟨2026, 10, 12, 1, 2, 5, 6⟩ 12 ⟨3, 40, 50⟩).uptime := by
  refine ⟨by norm_num, by norm_num, ?_⟩
  exact health_uptime_monotone _ _ 10 12 ⟨3, 40, 50⟩ (by norm_num) (by norm_num)

/-- C7: `/api/slow` passes a duration in `[1, 3]` to `time.sleep`
(`random.uniform(1, 3)` of a draw in `[0, 1)`) and returns the fixed
message. -/
theorem slow_endpoint_spec (r : ℚ) (dt : DateTime) (h0 : 0 ≤ r) (h1 : r < 1) :
    1 ≤ (slow_endpoint r dt).1 ∧ (slow_endpoint r dt).1 ≤ 3 ∧
    (slow_endpoint r dt).2.message = "This was a slow request from Flask" := by
  refine ⟨?_, ?_, rfl⟩ <;> simp only [slow_endpoint, uniform] <;> nlinarith

/-- C7 witness: the slow endpoint at the concrete draw 1/2. -/
theorem slow_endpoint_spec_witness :
    (0 : ℚ) ≤ 1/2 ∧ (1/2 : ℚ) < 1 ∧
    1 ≤ (slow_endpoint (1/2) ⟨2026, 10, 12, 1, 2, 3, 4⟩).1 ∧
    (slow_endpoint (1/2) ⟨2026, 10, 12, 1, 2, 3, 4⟩).1 ≤ 3 ∧
    (slow_endpoint (1/2) ⟨2026, 10, 12, 1, 2, 3, 4⟩).2.message =
      "This was a slow request from Flask" := by
  refine ⟨by norm_num, by norm_num, ?_⟩
  exact slow_endpoint_spec (1/2) _ (by norm_num) (by norm_num)

/-- C9: `/api/error` raises exactly when its draw is strictly greater than
0.5; at a draw of exactly 0.5 it returns the success body. -/
theorem error_endpoint_threshold :
    (∀ r : ℚ, (∃ e, error_endpoint r = Except.error e) ↔ 0.5 < r) ∧
    error_endpoint 0.5 = Except.ok { message := "Success from Flask!" } := by
  constructor
  · intro r
    unfold error_endpoint
    rcases lt_or_le (0.5 : ℚ) r with h | h
    · simp [if_pos (show r > 0.5 from h), h]
    · simp [if_neg (show ¬r > 0.5 from not_lt.mpr h), not_lt.mpr h]
  · unfold error_endpoint
    norm_num

/-- C10: when the `PORT` environment variable holds a string `int()`
rejects, the module-level `int(os.getenv('PORT', 5000))` raises, so
startup fails and no server starts. -/
theorem startup_fails_on_bad_PORT (s : String) (h : pythonInt s = none) :
    modulePORT (some s) = none ∧ startApp (some s) = none := by
  simp [startApp, modulePORT, h]

/-- C10 witness: the concrete non-numeric value "abc". -/
theorem startup_fails_on_bad_PORT_witness :
    pythonInt "abc" = none ∧ modulePORT (some "abc") = none ∧
    startApp (some "abc") = none := by
  refine ⟨by decide, ?_, ?_⟩
  · exact (startup_fails_on_bad_PORT "abc" (by decide)).1
  · exact (startup_fails_on_bad_PORT "abc" (by decide)).2

/-- C6: a request to `/` cannot fail: the handler is a total function and
its dispatch always yields status 200 with a body whose message is
non-empty, whose timestamp is a well-formed ISO-8601 string, and whose
project identifier is the constant "cliente3". -/
theorem home_wellformed (env : Env) (h : env.now.Valid) :
    handle Route.home env = (200, Body.homeB (home env.now)) ∧
    (home env.now).message ≠ "" ∧
    isIso8601 (home env.now).timestamp = true ∧
    (home env.now).project = "cliente3" := by
  refine ⟨rfl, (by decide : "Hello from Cliente 3 - Flask App!" ≠ ""), ?_, rfl⟩
  exact isIso8601_isoformat h

/-- C6 witness: the `/` handler at one concrete request environment. -/
theorem home_wellformed_witness :
    DateTime.Valid ⟨2026, 10, 12, 1, 2, 3, 4⟩ ∧
    (handle Route.home
        ⟨⟨2026, 10, 12, 1, 2, 3, 4⟩, 100, ⟨1, 2, 3⟩, ⟨1, [], [], []⟩,
          0, 0, 0, 0, 0, 0⟩ =
        (200, Body.homeB (home ⟨2026, 10, 12, 1, 2, 3, 4⟩)) ∧
      (home ⟨2026, 10, 12, 1, 2, 3, 4⟩).message ≠ "" ∧
      isIso8601 (home ⟨2026, 10, 12, 1, 2, 3, 4⟩).timestamp = true ∧
      (home ⟨2026, 10, 12, 1, 2, 3, 4⟩).project = "cliente3") :=
  ⟨by decide, home_wellformed _ (by decide)⟩

/-- C4 counterexample: a successful (status 200) `/health` response whose
`cpu_percent` field is 150, outside [0, 100].  The handler copies the
psutil reading through unchanged, and `psutil.Process().cpu_percent()` can
exceed 100 on a multi-core host, so the claimed bound is not enforced by
the code. -/
theorem health_range_cex :
    handle Route.health
        ⟨⟨2026, 10, 12, 1, 2, 3, 4⟩, 100, ⟨3, 40, 150⟩, ⟨1, [], [], []⟩,
          0, 0, 0, 0, 0, 0⟩ =
      (200, Body.healthB (health ⟨2026, 10, 12, 1, 2, 3, 4⟩ 100 ⟨3, 40, 150⟩)) ∧
    (health ⟨2026, 10, 12, 1, 2, 3, 4⟩ 100 ⟨3, 40, 150⟩).cpu_percent = 150 ∧
    ¬(health ⟨2026, 10, 12, 1, 2, 3, 4⟩ 100 ⟨3, 40, 150⟩).cpu_percent ≤ 100 := by
  refine ⟨rfl, rfl, ?_⟩
  norm_num [health]

/-- C4 amended: `/health` copies the process-metrics readings into
`memory_percent` and `cpu_percent` unchanged, so both fields lie within
[0, 100] exactly when the collaborator's readings do; the handler itself
imposes no bound. -/
theorem health_passthrough (now : DateTime) (t : ℚ) (p : ProcSensors)
    (hm0 : 0 ≤ p.memory_percent) (hm1 : p.memory_percent ≤ 100)
    (hc0 : 0 ≤ p.cpu_percent) (hc1 : p.cpu_percent ≤ 100) :
    (health now t p).memory_percent = p.memory_percent ∧
    (health now t p).cpu_percent = p.cpu_percent ∧
    0 ≤ (health now t p).memory_percent ∧
    (health now t p).memory_percent ≤ 100 ∧
    0 ≤ (health now t p).cpu_percent ∧
    (health now t p).cpu_percent ≤ 100 :=
  ⟨rfl, rfl, hm0, hm1, hc0, hc1⟩

/-- C4 witness: in-range readings pass through in range. -/
theorem health_passthrough_witness :
    (0 : ℚ) ≤ 40 ∧ (40 : ℚ) ≤ 100 ∧ (0 : ℚ) ≤ 50 ∧ (50 : ℚ) ≤ 100 ∧
    ((health ⟨2026, 1, 1, 0, 0, 0, 0⟩ 10 ⟨3, 40, 50⟩).memory_percent = 40 ∧
      0 ≤ (health ⟨2026, 1, 1, 0, 0, 0, 0⟩ 10 ⟨3, 40, 50⟩).memory_percent ∧
      (health ⟨2026, 1, 1, 0, 0, 0, 0⟩ 10 ⟨3, 40, 50⟩).memory_percent ≤ 100 ∧
      0 ≤ (health ⟨2026, 1, 1, 0, 0, 0, 0⟩ 10 ⟨3, 40, 50⟩).cpu_percent ∧
      (health ⟨2026, 1, 1, 0, 0, 0, 0⟩ 10 ⟨3, 40, 50⟩).cpu_percent ≤ 100) := by
  have h := health_passthrough ⟨2026, 1, 1, 0, 0, 0, 0⟩ 10 ⟨3, 40, 50⟩
    (by norm_num) (by norm_num) (by norm_num) (by norm_num)
  exact ⟨by norm_num, by norm_num, by norm_num, by norm_num,
    h.1, h.2.2.1, h.2.2.2.1, h.2.2.2.2.1, h.2.2.2.2.2⟩

/-- C1 counterexample: on the concrete draw 0.6 the handler raises, but
the raised message is "Random error for testing from Flask", not the
"Random error for testing" the claim states. -/
theorem error_message_cex :
    error_endpoint 0.6 = Except.error "Random error for testing from Flask" ∧
    "Random error for testing from Flask" ≠ "Random error for testing" := by
  constructor
  · unfold error_endpoint
    rw [if_pos (by norm_num : (0.6 : ℚ) > 0.5)]
  · decide

/-- C1 amended: the draws on which `/api/error` raises are exactly those
with `random.random() > 0.5`, a set of probability 1/2 under the uniform
draw on [0, 1); on a raising draw the wire response is status 500 with the
error body carrying "Random error for testing from Flask"; on every other
draw it is status 200 with the fixed success message. -/
theorem error_endpoint_amended :
    volume (errorRaiseSet ∩ Ico (0 : ℝ) 1) = 1 / 2 ∧
    (∀ r : ℚ, (r : ℝ) ∈ errorRaiseSet →
      flaskDispatch (error_endpoint r) =
        (500, Sum.inr { error := "Random error for testing from Flask" })) ∧
    (∀ r : ℚ, (r : ℝ) ∉ errorRaiseSet →
      flaskDispatch (error_endpoint r) =
        (200, Sum.inl { message := "Success from Flask!" })) := by
  refine ⟨?_, ?_, ?_⟩
  · have hset : errorRaiseSet ∩ Ico (0 : ℝ) 1 = Ioo 0.5 1 := by
      ext x
      simp only [errorRaiseSet, mem_inter_iff, mem_setOf_eq, mem_Ico, mem_Ioo]
      constructor
      · rintro ⟨hx1, _, hx3⟩; exact ⟨hx1, hx3⟩
      · rintro ⟨hx1, hx2⟩; exact ⟨hx1, le_trans (by norm_num) hx1.le, hx2⟩
    rw [hset, Real.volume_Ioo,
      show (1 : ℝ) - 0.5 = (2 : ℝ)⁻¹ by norm_num,
      ENNReal.ofReal_inv_of_pos (by norm_num), ENNReal.ofReal_ofNat, one_div]
  · intro r hr
    have hq : (0.5 : ℚ) < r := by
      have h2 : ((0.5 : ℚ) : ℝ) < (r : ℝ) := by
        simpa [errorRaiseSet, mem_setOf_eq] using hr
      exact_mod_cast h2
    unfold flaskDispatch error_endpoint
    rw [if_pos (show r > 0.5 from hq)]
    rfl
  · intro r hr
    have hq : ¬(0.5 : ℚ) < r := by
      intro hc
      exact hr (by simpa [errorRaiseSet, mem_setOf_eq] using
        (show ((0.5 : ℚ) : ℝ) < (r : ℝ) by exact_mod_cast hc))
    unfold flaskDispatch error_endpoint
    rw [if_neg (show ¬r > 0.5 from hq)]

/-- C1 witness: a raising draw (0.6) and a non-raising draw (0.3). -/
theorem error_endpoint_amended_witness :
    flaskDispatch (error_endpoint 0.6) =
      (500, Sum.inr { error := "Random error for testing from Flask" }) ∧
    flaskDispatch (error_endpoint 0.3) =
      (200, Sum.inl { message := "Success from Flask!" }) :=
  ⟨error_endpoint_amended.2.1 0.6 (by norm_num [errorRaiseSet, mem_setOf_eq]),
   error_endpoint_amended.2.2 0.3 (by norm_num [errorRaiseSet, mem_setOf_eq])⟩

/-- C8: serving keeps no state between requests: whenever two requests in
two arbitrary histories carry the same route and the same environment
(sensor readings, clock values, random draws), their responses are equal —
no handler's output depends on any prior request. -/
theorem handlers_stateless (l₁ l₂ : List (Route × Env)) (i j : ℕ)
    (h₁ : i < l₁.length) (h₂ : j < l₂.length)
    (heq : l₁.get ⟨i, h₁⟩ = l₂.get ⟨j, h₂⟩) :
    (serve l₁).get ⟨i, by simpa [serve] using h₁⟩ =
    (serve l₂).get ⟨j, by simpa [serve] using h₂⟩ := by
  simp only [List.get_eq_getElem] at heq
  simp [serve, heq]

/-- C8 witness: the same `/` request in two different histories (first
position of one, second position of the other) yields the same response. -/
theorem handlers_stateless_witness :
    (serve [(Route.home,
        ⟨⟨2026, 10, 12, 1, 2, 3, 4⟩, 100, ⟨1, 2, 3⟩, ⟨1, [], [], []⟩,
          0, 0, 0, 0, 0, 0⟩)]).get ⟨0, by simp [serve]⟩ =
    (serve [(Route.slow,
        ⟨⟨2026, 10, 12, 1, 2, 3, 4⟩, 100, ⟨1, 2, 3⟩, ⟨1, [], [], []⟩,
          0, 0, 0, 0, 0, 0⟩),
      (Route.home,
        ⟨⟨2026, 10, 12, 1, 2, 3, 4⟩, 100, ⟨1, 2, 3⟩, ⟨1, [], [], []⟩,
          0, 0, 0, 0, 0, 0⟩)]).get ⟨1, by simp [serve]⟩ :=
  handlers_stateless _ _ 0 1 (by simp) (by simp) rfl
